import Mathlib

/- Verification development for the darksoulsiii-practice-tool repository.

   The definitions below are a shallow embedding of the Rust sources:

   * practice-tool/src/lib.rs            (render loop, UI mode machine, frame log)
   * practice-tool/src/practice_tool.rs  (second render loop with indicators)
   * practice-tool/src/config.rs         (configuration parsing, defaults, widgets)
   * practice-tool/src/widgets/item_spawn.rs       (string_match, ItemSpawner)
   * practice-tool/src/widgets/character_stats.rs  (stats editor)
   * lib/hudhook/src/inject.rs           (DLL injector)

   Machine integers are modelled as Nat or Int with explicit wrap-around where
   it matters; fallible operations return Option or Except; the effects of a
   piece of stateful code are modelled as explicit state passing, with any
   calls into the host process recorded in an output list. -/

namespace DS3PT

/-! ## UI mode machine (lib.rs and practice_tool.rs, PracticeTool::render) -/

/-- The `UiState` enum shared by both render loops. -/
inductive UiState
  | MenuOpen
  | Closed
  | Hidden
  deriving DecidableEq, Repr

/-- The hotkey-path transition in lib.rs `PracticeTool::render` (lines 375-390).
It runs when the display hotkey transitions up on a frame where the UI has not
captured keyboard; `rshift` is GetAsyncKeyState(VK_RSHIFT) < 0, i.e. right
shift physically down.  Rust match arms are tried in order:
(Hidden, _) => Closed; (_, true) => Hidden; (MenuOpen, _) => Closed;
(Closed, _) => MenuOpen. -/
def uiStepLib (s : UiState) (rshift : Bool) : UiState :=
  match s, rshift with
  | .Hidden, _ => .Closed
  | _, true => .Hidden
  | .MenuOpen, _ => .Closed
  | .Closed, _ => .MenuOpen

/-- The hotkey-path transition in practice_tool.rs `PracticeTool::render`
(lines 683-696).  It runs when `display || hide` fired (hide is a separate
configured hotkey, not right shift) and the UI has not captured keyboard;
`is_hidden` is the persistent `self.is_hidden` field.  Match arms in order:
(Hidden, _) => MenuOpen; (_, true) => Hidden;
(MenuOpen, _) => if is_hidden then Hidden else Closed; (Closed, _) => MenuOpen. -/
def uiStepPt (is_hidden : Bool) (s : UiState) (hide : Bool) : UiState :=
  match s, hide with
  | .Hidden, _ => .MenuOpen
  | _, true => .Hidden
  | .MenuOpen, _ => if is_hidden then .Hidden else .Closed
  | .Closed, _ => .MenuOpen

/-- The transition table exactly as the specification words it (section 4.6),
rows applied in order: Hidden/any -> Closed; any/shift -> Hidden;
MenuOpen/no-shift -> Closed; Closed/no-shift -> MenuOpen.  This definition
follows the words of the spec and is compared against the source-derived
step functions. -/
def specUiStep (s : UiState) (shift : Bool) : UiState :=
  match s, shift with
  | .Hidden, _ => .Closed
  | _, true => .Hidden
  | .MenuOpen, _ => .Closed
  | .Closed, _ => .MenuOpen

/-! ## string_match (widgets/item_spawn.rs, lines 137-150) -/

/-- The inner loop of `string_match`: advance through the haystack looking for
`c`, consuming every character scanned, including the matching one.  Returns
the rest of the haystack after the first occurrence of `c`, or `none` when `c`
does not occur. -/
def findConsume (c : Char) : List Char → Option (List Char)
  | [] => none
  | d :: ds => if c = d then some ds else findConsume c ds

/-- The outer loop of `string_match` over already-lowercased character
sequences: for each needle character, consume the haystack up to and including
its first occurrence; fail when the haystack runs out. -/
def stringMatchChars : List Char → List Char → Bool
  | [], _ => true
  | c :: cs, hs =>
    match findConsume c hs with
    | some rest => stringMatchChars cs rest
    | none => false

/-- Function `string_match(needle, haystack)` from item_spawn.rs.  Rust lowercases both
iterators with `flat_map(char::to_lowercase)`; since `char::to_lowercase`
yields a sequence of characters, the embedding is parameterized by the
lowercasing function `lower`. -/
def string_match (lower : Char → List Char) (needle haystack : String) : Bool :=
  stringMatchChars (needle.data.flatMap lower) (haystack.data.flatMap lower)

/-! ## IGT indicator formatting (practice_tool.rs, IndicatorType::Igt arm) -/

/-- Rendering of a number under the Rust format spec `{:02}`: zero-padded to
width at least two, never truncated. -/
def pad2 (n : Nat) : String :=
  if n < 10 then "0" ++ toString n else toString n

/-- The IndicatorType::Igt arm of practice_tool.rs `render_closed`
(lines 497-512): from the raw in-game-time cell value in milliseconds,
millis = (igt % 1000) / 10, total_seconds = igt / 1000,
seconds = total_seconds % 60, minutes = total_seconds / 60 % 60,
hours = total_seconds / 3600, rendered as
"IGT hours:minutes:seconds.millis" with each field zero-padded to two
digits. -/
def igtText (igt : Nat) : String :=
  let millis := (igt % 1000) / 10
  let total_seconds := igt / 1000
  let seconds := total_seconds % 60
  let minutes := total_seconds / 60 % 60
  let hours := total_seconds / 3600
  "IGT " ++ pad2 hours ++ ":" ++ pad2 minutes ++ ":" ++ pad2 seconds ++ "." ++ pad2 millis

/-! ## Frame log (lib.rs lines 405-411, practice_tool.rs lines 713-719)

Timestamps are modelled as milliseconds on a monotonic clock (`Instant`). -/

/-- One frame-log entry: arrival instant in milliseconds, and the message. -/
abbrev LogEntry := Nat × String

/-- The call `self.log.retain(|(tm, _)| tm.elapsed() < Duration::from_secs(5))`:
keep entries strictly younger than 5000 ms as of `now`. -/
def retainFresh (now : Nat) (log : List LogEntry) : List LogEntry :=
  log.filter fun e => now - e.1 < 5000

/-- The log pass of lib.rs `render` (lines 405-411): for each widget in order,
extend the log with the messages that widget drained, stamped `now` (when it
yielded any), then retain only fresh entries.  The retain call sits inside
the per-widget loop, so it runs once per widget. -/
def logPassLib (now : Nat) (log0 : List LogEntry)
    (widgetLogs : List (Option (List String))) : List LogEntry :=
  widgetLogs.foldl
    (fun log wl =>
      retainFresh now
        (match wl with
         | some msgs => log ++ msgs.map fun m => (now, m)
         | none => log))
    log0

/-- The log pass of practice_tool.rs `render` (lines 717-719): drain the
channel of all messages widgets emitted this frame, stamp them `now`, extend
the log once, then retain only fresh entries once. -/
def logPassPt (now : Nat) (log0 : List LogEntry) (msgs : List String) :
    List LogEntry :=
  retainFresh now (log0 ++ msgs.map fun m => (now, m))

/-- Check that every entry of the log has age at most 5000 ms as of `now`. -/
def allFresh (now : Nat) (log : List LogEntry) : Bool :=
  log.all fun e => now - e.1 ≤ 5000

/-- A run of the lib.rs render loop's log handling: `PracticeTool::new`
initializes `log: Vec::new()`, and each subsequent frame applies the lib.rs
log pass at that frame's instant with the drain results of the fixed widget
vector (one `Option<Vec<String>>` per widget).  The log is extended nowhere
else. -/
def runLogLib (frames : List (Nat × List (Option (List String)))) :
    List LogEntry :=
  frames.foldl (fun log fr => logPassLib fr.1 log fr.2) []

/-! ## Configuration (config.rs) -/

/-- Modelled from the spec: `util.rs` is not under src/, so the hotkey name
catalogue of `get_key_code` is taken from the spec interface description
(hotkey chord names map to OS virtual-key codes; the default display key is
the string "0", the key `0`, virtual-key code 0x30).  Only the entries the
claims exercise are listed; unknown names yield `none`. -/
def get_key_code (s : String) : Option Nat :=
  match s with
  | "0" => some 0x30
  | "g" => some 0x47
  | _ => none

/-- Modelled from the spec: a hotkey is an abstract key identifier plus an
optional modifier (`util.rs` KeyState is not under src/). -/
structure KeyState where
  key : Nat
  modifier : Option Nat
  deriving DecidableEq, Repr

/-- Constructor `KeyState::new(key, modifier)`. -/
def KeyState.new (key : Nat) (modifier : Option Nat) : KeyState :=
  ⟨key, modifier⟩

/-- The textual log level names accepted by `LevelFilterSerde`. -/
inductive LevelFilter
  | TRACE
  | DEBUG
  | INFO
  | WARN
  | ERROR
  | OFF
  deriving DecidableEq, Repr

/-- The `Settings` struct of config.rs. -/
structure Settings where
  log_level : LevelFilter
  display : KeyState
  show_console : Bool
  deriving DecidableEq, Repr

/-- The `FlagSpec` struct of config.rs: a display label plus the flag-name
that selects the accessor for a `Bitflag<u8>` chain (the Rust field is a
function pointer into `PointerChains`; the embedding records which chain
field it selects). -/
structure FlagSpec where
  label : String
  flagName : String
  deriving DecidableEq, Repr

/-- Constructor `FlagSpec::new(label, getter)`. -/
def FlagSpec.new (label : String) (flagName : String) : FlagSpec :=
  ⟨label, flagName⟩

/-- Impl `TryFrom<String> for FlagSpec` (config.rs lines 217-248): the closed
catalogue of flag names; any other string is an error mentioning the string. -/
def FlagSpec.tryFrom (value : String) : Except String FlagSpec :=
  match value with
  | "all_no_damage" => .ok (FlagSpec.new "全体无伤害" "all_no_damage")
  | "inf_stamina" => .ok (FlagSpec.new "精力无消耗" "inf_stamina")
  | "inf_focus" => .ok (FlagSpec.new "专注值无消耗" "inf_focus")
  | "inf_consumables" => .ok (FlagSpec.new "物品使用无消耗" "inf_consumables")
  | "deathcam" => .ok (FlagSpec.new "死亡视角" "deathcam")
  | "no_death" => .ok (FlagSpec.new "不会死亡" "no_death")
  | "one_shot" => .ok (FlagSpec.new "一击必杀" "one_shot")
  | "evt_draw" => .ok (FlagSpec.new "事件绘制" "evt_draw")
  | "evt_disable" => .ok (FlagSpec.new "事件禁止" "evt_disable")
  | "ai_disable" => .ok (FlagSpec.new "不计算AI" "ai_disable")
  | "rend_chr" => .ok (FlagSpec.new "绘制角色" "rend_chr")
  | "rend_obj" => .ok (FlagSpec.new "绘制物件" "rend_obj")
  | "rend_map" => .ok (FlagSpec.new "绘制地图" "rend_map")
  | "rend_mesh_hi" => .ok (FlagSpec.new "碰撞检测 (高)" "rend_mesh_hi")
  | "rend_mesh_lo" => .ok (FlagSpec.new "碰撞检测 (低)" "rend_mesh_lo")
  | "rend_mesh_hit" => .ok (FlagSpec.new "命中碰撞检测" "rend_mesh_hit")
  | "debug_draw" => .ok (FlagSpec.new "调试绘制" "debug_draw")
  | "hurtbox" => .ok (FlagSpec.new "伤害区域显示 (需要调试绘制)" "rend_hurtbox")
  | "all_draw_hit" => .ok (FlagSpec.new "绘制所有角色碰撞" "all_draw_hit")
  | "ik_foot_ray" => .ok (FlagSpec.new "足部IK追踪" "ik_foot_ray")
  | "debug_sphere_1" => .ok (FlagSpec.new "调试球体1" "debug_sphere_1")
  | "debug_sphere_2" => .ok (FlagSpec.new "调试球体2" "debug_sphere_2")
  | "gravity" => .ok (FlagSpec.new "无重力" "gravity")
  | e => .error ("\"" ++ e ++ "\" is not a valid flag specifier")

/-- The `OpenMenuKind` enum consumed by the `open_menu` command. -/
inductive OpenMenuKind
  | travel
  | attune
  deriving DecidableEq, Repr

/-- The `CfgCommand` untagged enum of config.rs (lines 37-95).  32-bit float
payloads (`nudge`, `cycle_speed` entries) are carried as their raw bit
patterns, since no claim computes with them. -/
inductive CfgCommand
  | savefileManager (hotkey_load : KeyState) (hotkey_open : Option KeyState)
  | itemSpawner (hotkey_load : KeyState)
  | flag (flag : FlagSpec) (hotkey : Option KeyState)
  | position (hotkey : KeyState) (modifier : KeyState)
  | cycleSpeed (cycle_speed : List Nat) (hotkey : KeyState)
  | characterStats (hotkey_open : KeyState)
  | souls (amount : Nat) (hotkey : KeyState)
  | openMenu (kind : OpenMenuKind) (hotkey : Option KeyState)
  | quitout (hotkey : KeyState)
  | target (hotkey : KeyState)
  | nudgePosition (nudge : Nat) (nudge_up : KeyState) (nudge_down : KeyState)
  | group (label : String) (commands : List CfgCommand)

/-- The `Config` struct of config.rs. -/
structure Config where
  settings : Settings
  commands : List CfgCommand

/-- The `impl Default for Config` (config.rs lines 185-196): log level DEBUG,
display hotkey `KeyState::new(get_key_code("0").unwrap(), None)`, console
hidden, and an empty command list. -/
def Config.default : Config :=
  { settings :=
      { log_level := .DEBUG
        display := KeyState.new ((get_key_code "0").getD 0) none
        show_console := false }
    commands := [] }

/-- The startup fallback in both lib.rs (lines 72-75) and practice_tool.rs
(lines 99-102): on any config load or parse error, use `Config::default()`
and remember the error message for logging. -/
def startupConfig : Except String Config → Config × Option String
  | .ok c => (c, none)
  | .error e => (Config.default, some e)

/-! ## Widget materialization (config.rs `make_commands`) -/

/-- Widget descriptors as materialized by `Config::make_commands_inner`
(config.rs lines 123-178), one variant per constructed widget, carrying the
data taken from the command and the settings. -/
inductive Widget
  | flagW (label : String) (flagName : String) (hotkey : Option KeyState)
  | savefileManagerW (hotkey_load : KeyState) (hotkey_open : Option KeyState)
      (hotkey_close : KeyState)
  | itemSpawnerW (hotkey_load : KeyState) (hotkey_close : KeyState)
  | positionW (hotkey : KeyState) (modifier : KeyState)
  | nudgePositionW (nudge : Nat) (nudge_up : KeyState) (nudge_down : KeyState)
  | characterStatsW (hotkey_open : KeyState) (hotkey_close : KeyState)
  | cycleSpeedW (values : List Nat) (hotkey : KeyState)
  | soulsW (amount : Nat) (hotkey : KeyState)
  | quitoutW (hotkey : KeyState)
  | openMenuW (kind : OpenMenuKind) (hotkey : Option KeyState)
  | targetW (hotkey : KeyState)
  | groupW (label : String) (children : List Widget)

mutual

/-- One arm of the `make_commands_inner` map (config.rs lines 130-176). -/
def makeCommand (settings : Settings) : CfgCommand → Widget
  | .flag f hotkey => .flagW f.label f.flagName hotkey
  | .savefileManager hl ho => .savefileManagerW hl ho settings.display
  | .itemSpawner hl => .itemSpawnerW hl settings.display
  | .position hk m => .positionW hk m
  | .nudgePosition n up down => .nudgePositionW n up down
  | .characterStats ho => .characterStatsW ho settings.display
  | .cycleSpeed vs hk => .cycleSpeedW vs hk
  | .souls amt hk => .soulsW amt hk
  | .quitout hk => .quitoutW hk
  | .openMenu kind hk => .openMenuW kind hk
  | .target hk => .targetW hk
  | .group label cmds => .groupW label (makeCommandsInner settings cmds)

/-- Function `Config::make_commands_inner`: map the command list, in order, to widget
descriptors, recursing through groups. -/
def makeCommandsInner (settings : Settings) : List CfgCommand → List Widget
  | [] => []
  | c :: cs => makeCommand settings c :: makeCommandsInner settings cs

end

/-- Function `Config::make_commands` (config.rs lines 180-182). -/
def Config.make_commands (c : Config) : List Widget :=
  makeCommandsInner c.settings c.commands

/-! ## TOML command tables and the serde-untagged parse (config.rs + serde)

The deserialization of one `[[commands]]` entry is the serde `untagged`
protocol over `CfgCommand`: the buffered table is tried against each variant
in declaration order; required fields must be present and parse, `Option`
fields may be absent, unknown keys are ignored; if no variant matches, the
error is the fixed message
"data did not match any variant of untagged enum CfgCommand" (per-variant
errors, such as the FlagSpec message, are discarded).  `Config::parse` wraps
the toml error as "TOML configuration parse error: " followed by the toml
rendering of that message (the toml crate adds location information, which is
omitted here; it never contains the offending flag value). -/

/-- TOML values as far as the command tables need them. -/
inductive TomlVal
  | str (s : String)
  | int (n : Int)
  | float (bits : Nat)
  | boolean (b : Bool)
  | arr (xs : List TomlVal)
  | table (kvs : List (String × TomlVal))

/-- A `[[commands]]` table: ordered key-value pairs. -/
abbrev CmdTable := List (String × TomlVal)

/-- Key lookup in a command table. -/
def lookupKey (t : CmdTable) (k : String) : Option TomlVal :=
  (t.find? fun kv => kv.1 == k).map (·.2)

/-- Deserialize a `KeyState` from a TOML value: a string hotkey chord whose
key name resolves through `get_key_code`.  Modelled from the spec at the
level C5 needs (`util.rs` is not under src/). -/
def parseKeyState (v : TomlVal) : Option KeyState :=
  match v with
  | .str s => (get_key_code s).map fun c => KeyState.new c none
  | _ => none

/-- A required `KeyState` field: the key must be present and parse. -/
def reqKey (t : CmdTable) (k : String) : Option KeyState :=
  (lookupKey t k).bind parseKeyState

/-- An optional `KeyState` field: absent is fine, present must parse. -/
def optKey (t : CmdTable) (k : String) : Option (Option KeyState) :=
  match lookupKey t k with
  | none => some none
  | some v => (parseKeyState v).map some

/-- A required `u32` field. -/
def reqU32 (t : CmdTable) (k : String) : Option Nat :=
  match lookupKey t k with
  | some (.int n) => if 0 ≤ n ∧ n < 4294967296 then some n.toNat else none
  | _ => none

/-- A required `f32` field, kept as raw bits. -/
def reqF32 (t : CmdTable) (k : String) : Option Nat :=
  match lookupKey t k with
  | some (.float bits) => some bits
  | some (.int n) => if 0 ≤ n then some n.toNat else none
  | _ => none

/-- A required `Vec<f32>` field, kept as raw bits. -/
def reqF32List (t : CmdTable) (k : String) : Option (List Nat) :=
  match lookupKey t k with
  | some (.arr xs) =>
    xs.foldr
      (fun x acc =>
        match x, acc with
        | .float bits, some l => some (bits :: l)
        | .int n, some l => if 0 ≤ n then some (n.toNat :: l) else none
        | _, _ => none)
      (some [])
  | _ => none

/-- A required `FlagSpec` field (`TryFrom<String>`). -/
def reqFlag (t : CmdTable) (k : String) : Option FlagSpec :=
  match lookupKey t k with
  | some (.str s) =>
    match FlagSpec.tryFrom s with
    | .ok f => some f
    | .error _ => none
  | _ => none

/-- A required `OpenMenuKind` field. -/
def reqOpenMenuKind (t : CmdTable) (k : String) : Option OpenMenuKind :=
  match lookupKey t k with
  | some (.str "travel") => some .travel
  | some (.str "attune") => some .attune
  | _ => none

/-- A required `String` field. -/
def reqString (t : CmdTable) (k : String) : Option String :=
  match lookupKey t k with
  | some (.str s) => some s
  | _ => none

/-- The fixed serde error produced when no untagged variant matches. -/
def untaggedErrorMsg : String :=
  "data did not match any variant of untagged enum CfgCommand"

/-- The text `Config::parse` puts in front of the toml error
(config.rs line 120). -/
def configParseErrorHead : String :=
  "TOML configuration parse error: "

/-- Try the untagged variants of `CfgCommand` in declaration order against a
command table; `fuel` bounds the recursion depth through `group` (the Rust
recursion is bounded by the depth of the parsed value, so any fuel at least
that depth computes the same result). -/
def parseCfgCommand : Nat → CmdTable → Option CfgCommand
  | 0, _ => none
  | fuel + 1, t =>
    match reqKey t "savefile_manager", optKey t "hotkey_open" with
    | some hl, some ho => some (.savefileManager hl ho)
    | _, _ =>
    match reqKey t "item_spawner" with
    | some hl => some (.itemSpawner hl)
    | none =>
    match reqFlag t "flag", optKey t "hotkey" with
    | some f, some hk => some (.flag f hk)
    | _, _ =>
    match reqKey t "position", reqKey t "modifier" with
    | some hk, some m => some (.position hk m)
    | _, _ =>
    match reqF32List t "cycle_speed", reqKey t "hotkey" with
    | some vs, some hk => some (.cycleSpeed vs hk)
    | _, _ =>
    match reqKey t "character_stats" with
    | some ho => some (.characterStats ho)
    | none =>
    match reqU32 t "souls", reqKey t "hotkey" with
    | some amt, some hk => some (.souls amt hk)
    | _, _ =>
    match reqOpenMenuKind t "open_menu", optKey t "hotkey" with
    | some kind, some hk => some (.openMenu kind hk)
    | _, _ =>
    match reqKey t "quitout" with
    | some hk => some (.quitout hk)
    | none =>
    match reqKey t "target" with
    | some hk => some (.target hk)
    | none =>
    match reqF32 t "nudge", reqKey t "nudge_up", reqKey t "nudge_down" with
    | some n, some up, some down => some (.nudgePosition n up down)
    | _, _, _ =>
    match reqString t "group", lookupKey t "commands" with
    | some label, some (.arr xs) =>
      match xs.foldr
          (fun x acc =>
            match x, acc with
            | .table kvs, some cs =>
              match parseCfgCommand fuel kvs with
              | some c => some (c :: cs)
              | none => none
            | _, _ => none)
          (some []) with
      | some cs => some (.group label cs)
      | none => none
    | _, _ => none

/-- Parse the `commands` array of a configuration; the first table matching
no untagged variant fails the whole parse with the serde message, wrapped by
`Config::parse`.  `group` recursion is omitted from `parseCfgCommand` at
fuel 0 and not exercised by the claims; `fuel` is threaded for uniformity. -/
def parseCommands (fuel : Nat) (ts : List CmdTable) :
    Except String (List CfgCommand) :=
  ts.foldr
    (fun t acc =>
      match parseCfgCommand fuel t, acc with
      | some c, .ok cs => .ok (c :: cs)
      | some _, .error e => .error e
      | none, _ => .error (configParseErrorHead ++ untaggedErrorMsg))
    (.ok [])

/-- Plain substring check used to state what an error message mentions. -/
def mentions (needle hay : String) : Bool :=
  go needle.data hay.data
where
  /-- Check the needle against every suffix of the haystack. -/
  go (n : List Char) : List Char → Bool
    | [] => n.isEmpty
    | c :: cs => leadEq n (c :: cs) || go n cs
  /-- Leading-segment test on character lists. -/
  leadEq : List Char → List Char → Bool
    | [], _ => true
    | _ :: _, [] => false
    | a :: as, b :: bs => a == b && leadEq as bs

/-! ## Item spawner (widgets/item_spawn.rs) -/

/-- The `UPGRADES` table of item_spawn.rs (lines 34-46). -/
def UPGRADES : List (Nat × String) :=
  [(0, "+0"), (1, "+1"), (2, "+2"), (3, "+3"), (4, "+4"), (5, "+5"), (6, "+6"),
   (7, "+7"), (8, "+8"), (9, "+9"), (10, "+10")]

/-- The `INFUSION_TYPES` table of item_spawn.rs (lines 15-32). -/
def INFUSION_TYPES : List (Nat × String) :=
  [(0, "普通"), (100, "厚重"), (200, "锋利"), (300, "熟练"), (400, "愚人"),
   (500, "结晶"), (600, "火焰"), (700, "混沌"), (800, "雷"), (900, "幽邃"),
   (1000, "暗"), (1100, "毒"), (1200, "血"), (1300, "粗制"), (1400, "祝福"),
   (1500, "游魂")]

/-- The in-memory request passed through the spawn-item function pointer
(`SpawnRequest` in `ItemSpawnInstance::spawn`), all fields u32. -/
structure SpawnRequest where
  unknown : Nat
  item_id : Nat
  qty : Nat
  durability : Nat
  deriving DecidableEq, Repr

/-- The mutable state of the `ItemSpawner` widget: the spawn parameters, the
cached host pointers, and the private log.  `upgrade` and `infusion_type`
index `UPGRADES` and `INFUSION_TYPES`; the combo boxes keep them in bounds,
which the `Fin` types record. -/
structure ItemSpawner where
  func_ptr : Nat
  map_item_man : Nat
  qty : Nat
  item_id : Nat
  durability : Nat
  upgrade : Fin 11
  infusion_type : Fin 16
  log : Option (List String)
  deriving DecidableEq, Repr

/-- Method `ItemSpawner::write_log` (lines 236-245): push one message onto the
private log vector, creating it when absent. -/
def ItemSpawner.write_log (s : ItemSpawner) (msg : String) : ItemSpawner :=
  { s with
    log := some (match s.log with
                 | some v => v ++ [msg]
                 | none => [msg]) }

/-- Method `ItemSpawner::spawn` (lines 207-234).  `sentinel` is the result of
`self.sentinel.get()` on the sentinel bitflag (the gravity chain); `none`
means the chain did not resolve, i.e. the player is not in a live game.
Returns the new widget state plus the list of requests issued through the
spawn-item function pointer this call (`ItemSpawnInstance::spawn` adds
infusion and upgrade into the u32 item id). -/
def ItemSpawner.spawn (sentinel : Option Bool) (s : ItemSpawner) :
    ItemSpawner × List SpawnRequest :=
  match sentinel with
  | none => (s.write_log "不在游戏中无法生成物品", [])
  | some _ =>
    let upgrade := (UPGRADES.get (Fin.cast rfl s.upgrade)).1
    let infusion := (INFUSION_TYPES.get (Fin.cast rfl s.infusion_type)).1
    let s' := s.write_log
      ("生成 " ++ toString s.qty ++ " #" ++ toString s.item_id ++ " "
        ++ (UPGRADES.get (Fin.cast rfl s.upgrade)).2 ++ " "
        ++ (INFUSION_TYPES.get (Fin.cast rfl s.infusion_type)).2)
    (s', [{ unknown := 1
            item_id := (s.item_id + infusion + upgrade) % 4294967296
            qty := s.qty
            durability := s.durability }])

/-- View the private log as the list of messages it holds. -/
def logMessages : Option (List String) → List String
  | some v => v
  | none => []

/-! ## Character stats editor (widgets/character_stats.rs) -/

/-- Largest i32 value, the upper clamp bound for level and souls. -/
def INT_MAX : Int := 2147483647

/-- The `CharacterStats` struct snapshot edited by the modal (i32 fields). -/
structure CharacterStats where
  level : Int
  vigor : Int
  attunement : Int
  endurance : Int
  vitality : Int
  strength : Int
  dexterity : Int
  intelligence : Int
  faith : Int
  luck : Int
  souls : Int
  deriving DecidableEq, Repr

/-- The editable fields of the stats modal, in the order the code lays the
input boxes out. -/
inductive StatField
  | level
  | vigor
  | attunement
  | endurance
  | vitality
  | strength
  | dexterity
  | intelligence
  | faith
  | luck
  | souls
  deriving DecidableEq, Repr

/-- Read one field of the snapshot. -/
def statGet (s : CharacterStats) : StatField → Int
  | .level => s.level
  | .vigor => s.vigor
  | .attunement => s.attunement
  | .endurance => s.endurance
  | .vitality => s.vitality
  | .strength => s.strength
  | .dexterity => s.dexterity
  | .intelligence => s.intelligence
  | .faith => s.faith
  | .luck => s.luck
  | .souls => s.souls

/-- Write one field of the snapshot. -/
def statSet (s : CharacterStats) (f : StatField) (v : Int) : CharacterStats :=
  match f with
  | .level => { s with level := v }
  | .vigor => { s with vigor := v }
  | .attunement => { s with attunement := v }
  | .endurance => { s with endurance := v }
  | .vitality => { s with vitality := v }
  | .strength => { s with strength := v }
  | .dexterity => { s with dexterity := v }
  | .intelligence => { s with intelligence := v }
  | .faith => { s with faith := v }
  | .luck => { s with luck := v }
  | .souls => { s with souls := v }

/-- The clamp bounds the modal applies per field (character_stats.rs lines
69-101): level in 1..=i32::MAX, souls in 0..=i32::MAX, the nine attribute
stats in 1..=99. -/
def clampRange : StatField → Int × Int
  | .level => (1, INT_MAX)
  | .souls => (0, INT_MAX)
  | _ => (1, 99)

/-- Rust `i32::clamp(lo, hi)`: `max lo (min v hi)` (the code never has
lo > hi). -/
def clampInt (v lo hi : Int) : Int :=
  max lo (min v hi)

/-- One `input_int` edit firing on a field: the raw value `v` is written into
the field and the field is immediately reassigned its clamped value. -/
def editStat (s : CharacterStats) (f : StatField) (v : Int) : CharacterStats :=
  statSet s f (clampInt v (clampRange f).1 (clampRange f).2)

/-- Whether every field of the snapshot lies inside its clamp range. -/
def statsInRange (s : CharacterStats) : Bool :=
  [StatField.level, .vigor, .attunement, .endurance, .vitality, .strength,
   .dexterity, .intelligence, .faith, .luck, .souls].all
    fun f => (clampRange f).1 ≤ statGet s f && statGet s f ≤ (clampRange f).2

/-- One frame of the open stats modal (character_stats.rs lines 59-114):
apply the edits that fired this frame in order, then, when the apply button
is pressed, write the buffered snapshot back through the pointer chain.  The
second component lists the snapshots written to the game this frame. -/
def statsModalFrame (s : CharacterStats) (edits : List (StatField × Int))
    (applyPressed : Bool) : CharacterStats × List CharacterStats :=
  let s' := edits.foldl (fun acc e => editStat acc e.1 e.2) s
  (s', if applyPressed then [s'] else [])

/-! ## Injector (lib/hudhook/src/inject.rs) -/

/-- The outcomes the OS hands to one run of `inject`: the window handle
lookup (`none` for NULL), the `GetLastError` value, and the raw results of
`OpenProcess`, `VirtualAllocEx` (`none` for NULL), `WriteProcessMemory` and
`CreateRemoteThread` (0 modelling a NULL handle). -/
structure InjectEnv where
  find_window : Option Nat
  last_error : Nat
  open_process : Nat
  alloc : Option Nat
  write_ok : Bool
  create_thread : Nat
  deriving DecidableEq, Repr

/-- What one run of `inject` did to the host: the errors it surfaced (step
name and OS last-error code), the remote allocations it freed with
`VirtualFreeEx`, and the handles it closed with `CloseHandle`, in order. -/
structure InjectTrace where
  errors : List (String × Nat)
  freed : List Nat
  closed : List Nat
  deriving DecidableEq, Repr

/-- Function `inject` (inject.rs lines 18-88).  Only the `FindWindowA` result is
checked: on NULL the function logs the last-error code and returns early,
before any handle or allocation exists.  Every later step runs unchecked —
`OpenProcess`, `VirtualAllocEx`, `WriteProcessMemory` (its result is only
debug-logged) and `CreateRemoteThread` results are never tested — and on
that path the function always waits, closes the thread handle, frees the
remote allocation and closes the process handle, whatever the step results
were.  The function returns unit either way. -/
def inject (env : InjectEnv) : InjectTrace :=
  match env.find_window with
  | none =>
    { errors := [("FindWindowA", env.last_error)]
      freed := []
      closed := [] }
  | some _ =>
    { errors := []
      freed := [env.alloc.getD 0]
      closed := [env.create_thread, env.open_process] }

/-! ## Widget dispatch order (lib.rs / practice_tool.rs render passes) -/

/-- The three widget trait calls a frame can dispatch. -/
inductive WidgetCall
  | interact
  | render
  | renderClosed
  deriving DecidableEq, Repr

/-- Whether a call is one of the render passes. -/
def isRenderCall : WidgetCall → Bool
  | .interact => false
  | .render => true
  | .renderClosed => true

/-- The dispatch trace of lib.rs `render_visible` (lines 179-187) over the
config-ordered widget list: one `interact` per widget in order, then one
`render` per widget in order. -/
def traceVisibleLib (ws : List Nat) : List (Nat × WidgetCall) :=
  (ws.map fun w => (w, WidgetCall.interact)) ++ ws.map fun w => (w, WidgetCall.render)

/-- The dispatch trace of practice_tool.rs `render_visible` (lines 229-238):
the interact loop is skipped when the UI has keyboard capture with an active
item (`gate`), the render loop always runs, both in config order. -/
def traceVisiblePt (gate : Bool) (ws : List Nat) : List (Nat × WidgetCall) :=
  (if gate then [] else ws.map fun w => (w, WidgetCall.interact))
    ++ ws.map fun w => (w, WidgetCall.render)

/-- The dispatch trace of `render_closed` in both lib.rs (lines 292-298) and
practice_tool.rs (lines 546-552): one `render_closed` per widget in order,
then one `interact` per widget in order. -/
def traceClosed (ws : List Nat) : List (Nat × WidgetCall) :=
  (ws.map fun w => (w, WidgetCall.renderClosed)) ++ ws.map fun w => (w, WidgetCall.interact)

/-- The dispatch trace of `render_hidden` in both files: interact only, in
config order. -/
def traceHidden (ws : List Nat) : List (Nat × WidgetCall) :=
  ws.map fun w => (w, WidgetCall.interact)

/-- Every interact call precedes every render call: once a render call
occurs, no interact call may follow. -/
def interactsPrecedeRenders : List (Nat × WidgetCall) → Bool
  | [] => true
  | e :: rest =>
    if isRenderCall e.2 then rest.all fun x => isRenderCall x.2
    else interactsPrecedeRenders rest

/-- Every render call precedes every interact call: once an interact call
occurs, no render call may follow. -/
def rendersPrecedeInteracts : List (Nat × WidgetCall) → Bool
  | [] => true
  | e :: rest =>
    if isRenderCall e.2 then rendersPrecedeInteracts rest
    else rest.all fun x => !isRenderCall x.2

/-- The widgets receiving `interact`, in dispatch order. -/
def interactOrder (tr : List (Nat × WidgetCall)) : List Nat :=
  (tr.filter fun e => e.2 == WidgetCall.interact).map (·.1)

/-- The widgets receiving a render call, in dispatch order. -/
def renderOrder (tr : List (Nat × WidgetCall)) : List Nat :=
  (tr.filter fun e => isRenderCall e.2).map (·.1)

/-! ## Helper lemmas -/

/-- Everything surviving a retain pass is at most 5 seconds old. -/
theorem allFresh_retainFresh (now : Nat) (l : List LogEntry) :
    allFresh now (retainFresh now l) = true := by
  simp only [allFresh, retainFresh, List.all_eq_true, decide_eq_true_eq]
  intro e he
  have h := List.of_mem_filter he
  have h' : now - e.1 < 5000 := by simpa using h
  omega

/-- With at least one widget, the lib.rs log pass ends in a retain pass. -/
theorem logPassLib_eq_retainFresh (now : Nat) :
    ∀ (wls : List (Option (List String))) (log0 : List LogEntry), wls ≠ [] →
      ∃ l, logPassLib now log0 wls = retainFresh now l := by
  intro wls
  induction wls with
  | nil => intro log0 h; exact absurd rfl h
  | cons w rest ih =>
    intro log0 h
    cases rest with
    | nil =>
      cases w with
      | some msgs => exact ⟨log0 ++ msgs.map fun m => (now, m), rfl⟩
      | none => exact ⟨log0, rfl⟩
    | cons w2 rest2 =>
      cases w with
      | some msgs =>
        obtain ⟨l, hl⟩ :=
          ih (retainFresh now (log0 ++ msgs.map fun m => (now, m))) (by simp)
        exact ⟨l, hl⟩
      | none =>
        obtain ⟨l, hl⟩ := ih (retainFresh now log0) (by simp)
        exact ⟨l, hl⟩

/-- With an empty widget vector every frame's lib.rs log pass both extends
and evicts nothing, so a run from the empty initial log stays empty. -/
theorem runLogLib_no_widgets :
    ∀ frames : List (Nat × List (Option (List String))),
      (∀ fr ∈ frames, fr.2 = ([] : List (Option (List String)))) →
      runLogLib frames = [] := by
  intro frames
  induction frames with
  | nil => intro h; rfl
  | cons fr rest ih =>
    intro h
    have h1 : logPassLib fr.1 ([] : List LogEntry) fr.2 = [] := by
      rw [h fr (List.mem_cons_self fr rest)]
      rfl
    have h2 := ih fun f hf => h f (List.mem_cons_of_mem fr hf)
    simpa [runLogLib, List.foldl_cons, h1] using h2

/-- One fused step of the string_match loops. -/
theorem stringMatchChars_cons_cons (c d : Char) (cs ds : List Char) :
    stringMatchChars (c :: cs) (d :: ds)
      = if c = d then stringMatchChars cs ds else stringMatchChars (c :: cs) ds := by
  by_cases h : c = d
  · simp [stringMatchChars, findConsume, h]
  · simp [stringMatchChars, findConsume, h]

/-- The greedy loop of string_match decides the subsequence relation. -/
theorem stringMatchChars_iff_sublist :
    ∀ (hs ns : List Char), stringMatchChars ns hs = true ↔ ns.Sublist hs := by
  intro hs
  induction hs with
  | nil =>
    intro ns
    cases ns with
    | nil => simp [stringMatchChars]
    | cons c cs => simp [stringMatchChars, findConsume]
  | cons d ds ih =>
    intro ns
    cases ns with
    | nil => simp [stringMatchChars, List.nil_sublist]
    | cons c cs =>
      rw [stringMatchChars_cons_cons]
      by_cases h : c = d
      · subst h
        rw [if_pos rfl, ih cs]
        exact List.cons_sublist_cons.symm
      · rw [if_neg h, ih (c :: cs)]
        constructor
        · exact fun hsub => hsub.cons d
        · intro hsub
          cases hsub with
          | cons _ h2 => exact h2
          | cons₂ => exact absurd rfl h

/-- Prepending interact calls preserves the interacts-first discipline. -/
theorem interactsPrecedeRenders_append_interacts (ws : List Nat)
    (rest : List (Nat × WidgetCall)) (h : interactsPrecedeRenders rest = true) :
    interactsPrecedeRenders ((ws.map fun w => (w, WidgetCall.interact)) ++ rest)
      = true := by
  induction ws with
  | nil => simp [h]
  | cons w rest2 ih => simpa [interactsPrecedeRenders, isRenderCall] using ih

/-- A pure render block satisfies the interacts-first discipline. -/
theorem interactsPrecedeRenders_renders (ws : List Nat) :
    interactsPrecedeRenders (ws.map fun w => (w, WidgetCall.render)) = true := by
  cases ws with
  | nil => rfl
  | cons w rest =>
    simp [interactsPrecedeRenders, isRenderCall, List.all_eq_true, List.mem_map]

/-- Prepending render calls preserves the renders-first discipline. -/
theorem rendersPrecedeInteracts_append_renders (ws : List Nat)
    (rest : List (Nat × WidgetCall)) (h : rendersPrecedeInteracts rest = true) :
    rendersPrecedeInteracts
      ((ws.map fun w => (w, WidgetCall.renderClosed)) ++ rest) = true := by
  induction ws with
  | nil => simp [h]
  | cons w rest2 ih => simpa [rendersPrecedeInteracts, isRenderCall] using ih

/-- A pure interact block satisfies the renders-first discipline. -/
theorem rendersPrecedeInteracts_interacts (ws : List Nat) :
    rendersPrecedeInteracts (ws.map fun w => (w, WidgetCall.interact)) = true := by
  cases ws with
  | nil => rfl
  | cons w rest =>
    simp [rendersPrecedeInteracts, isRenderCall, List.all_eq_true, List.mem_map]

/-- Interact dispatch order of an interact block followed by a render block. -/
theorem interactOrder_interacts_renders (ws₁ ws₂ : List Nat)
    (c : WidgetCall) (hc : isRenderCall c = true) :
    interactOrder ((ws₁.map fun w => (w, WidgetCall.interact))
      ++ ws₂.map fun w => (w, c)) = ws₁ := by
  have h2 : ∀ l : List Nat,
      (l.map fun w => (w, c)).filter (fun e => e.2 == WidgetCall.interact) = [] := by
    intro l
    induction l with
    | nil => rfl
    | cons x xs ih =>
      have : (c == WidgetCall.interact) = false := by
        cases c <;> simp_all [isRenderCall]
      simpa [List.filter, this] using ih
  have h1 : ∀ l : List Nat,
      (l.map fun w => (w, WidgetCall.interact)).filter
        (fun e => e.2 == WidgetCall.interact) = l.map fun w => (w, WidgetCall.interact) := by
    intro l
    induction l with
    | nil => rfl
    | cons x xs ih => simp [List.filter, ih]
  simp only [interactOrder, List.filter_append, h1, h2, List.map_map,
    List.append_nil]
  exact List.map_id ws₁

/-- Render dispatch order of a mixed block pair. -/
theorem renderOrder_interacts_renders (ws₁ ws₂ : List Nat)
    (c : WidgetCall) (hc : isRenderCall c = true) :
    renderOrder ((ws₁.map fun w => (w, WidgetCall.interact))
      ++ ws₂.map fun w => (w, c)) = ws₂ := by
  have h1 : ∀ l : List Nat,
      (l.map fun w => (w, WidgetCall.interact)).filter (fun e => isRenderCall e.2)
        = [] := by
    intro l
    induction l with
    | nil => rfl
    | cons x xs ih => simp [List.filter, isRenderCall, ih]
  have h2 : ∀ l : List Nat,
      (l.map fun w => (w, c)).filter (fun e => isRenderCall e.2)
        = l.map fun w => (w, c) := by
    intro l
    induction l with
    | nil => rfl
    | cons x xs ih => simp [List.filter, hc, ih]
  simp only [renderOrder, List.filter_append, h1, h2, List.map_map,
    List.nil_append]
  exact List.map_id ws₂

/-- Interact dispatch order of a render block followed by an interact block. -/
theorem interactOrder_renders_interacts (ws₁ ws₂ : List Nat)
    (c : WidgetCall) (hc : isRenderCall c = true) :
    interactOrder ((ws₁.map fun w => (w, c))
      ++ ws₂.map fun w => (w, WidgetCall.interact)) = ws₂ := by
  have h1 : ∀ l : List Nat,
      (l.map fun w => (w, c)).filter (fun e => e.2 == WidgetCall.interact) = [] := by
    intro l
    induction l with
    | nil => rfl
    | cons x xs ih =>
      have : (c == WidgetCall.interact) = false := by
        cases c <;> simp_all [isRenderCall]
      simp [List.filter, this, ih]
  have h2 : ∀ l : List Nat,
      (l.map fun w => (w, WidgetCall.interact)).filter
        (fun e => e.2 == WidgetCall.interact) = l.map fun w => (w, WidgetCall.interact) := by
    intro l
    induction l with
    | nil => rfl
    | cons x xs ih => simp [List.filter, ih]
  simp only [interactOrder, List.filter_append, h1, h2, List.map_map,
    List.nil_append]
  exact List.map_id ws₂

/-- Render dispatch order of a render block followed by an interact block. -/
theorem renderOrder_renders_interacts (ws₁ ws₂ : List Nat)
    (c : WidgetCall) (hc : isRenderCall c = true) :
    renderOrder ((ws₁.map fun w => (w, c))
      ++ ws₂.map fun w => (w, WidgetCall.interact)) = ws₁ := by
  have h1 : ∀ l : List Nat,
      (l.map fun w => (w, c)).filter (fun e => isRenderCall e.2)
        = l.map fun w => (w, c) := by
    intro l
    induction l with
    | nil => rfl
    | cons x xs ih => simp [List.filter, hc, ih]
  have h2 : ∀ l : List Nat,
      (l.map fun w => (w, WidgetCall.interact)).filter (fun e => isRenderCall e.2)
        = [] := by
    intro l
    induction l with
    | nil => rfl
    | cons x xs ih => simp [List.filter, isRenderCall, ih]
  simp only [renderOrder, List.filter_append, h1, h2, List.map_map,
    List.append_nil]
  exact List.map_id ws₁

/-- Reading the field just written returns the written value. -/
theorem statGet_statSet_same (s : CharacterStats) (f : StatField) (v : Int) :
    statGet (statSet s f v) f = v := by
  cases f <;> rfl

/-- Writing one field leaves every other field unchanged. -/
theorem statGet_statSet_other (s : CharacterStats) (f : StatField) (v : Int)
    (g : StatField) (hg : g ≠ f) : statGet (statSet s f v) g = statGet s g := by
  cases f <;> cases g <;> first | exact absurd rfl hg | rfl

/-- A clamp with ordered bounds lands inside the bounds. -/
theorem clampInt_mem (v lo hi : Int) (h : lo ≤ hi) :
    lo ≤ clampInt v lo hi ∧ clampInt v lo hi ≤ hi :=
  ⟨le_max_left lo (min v hi), max_le h (min_le_right v hi)⟩

/-! ## Claims -/

/-- C1, counterexample.  The claim reads the section 4.6 table over both
cited hotkey paths, but in the practice_tool.rs path a display press in the
Hidden state moves the UI to MenuOpen, where the table demands Closed. -/
theorem C1_counterexample :
    uiStepPt false UiState.Hidden false = UiState.MenuOpen ∧
    specUiStep UiState.Hidden false = UiState.Closed :=
  ⟨rfl, rfl⟩

/-- C1, amended.  The lib.rs hotkey path steps exactly by the section 4.6
table (rows in order: Hidden to Closed; right shift down to Hidden; MenuOpen
to Closed; Closed to MenuOpen).  The practice_tool.rs hotkey path instead
fires on display-or-hide, where hide is a separately configured hotkey
rather than right shift, and steps: from Hidden to MenuOpen; otherwise with
hide pressed to Hidden; from MenuOpen to Hidden when the menu was entered
from the hidden state and to Closed otherwise; from Closed to MenuOpen. -/
theorem C1_ui_mode_tables :
    (∀ (s : UiState) (rshift : Bool), uiStepLib s rshift = specUiStep s rshift) ∧
    (∀ ih : Bool,
      uiStepPt ih UiState.Hidden false = UiState.MenuOpen ∧
      uiStepPt ih UiState.Hidden true = UiState.MenuOpen ∧
      uiStepPt ih UiState.MenuOpen true = UiState.Hidden ∧
      uiStepPt ih UiState.Closed true = UiState.Hidden ∧
      uiStepPt ih UiState.MenuOpen false
        = (if ih then UiState.Hidden else UiState.Closed) ∧
      uiStepPt ih UiState.Closed false = UiState.MenuOpen) := by
  constructor
  · intro s r
    cases s <;> cases r <;> rfl
  · intro ih
    refine ⟨rfl, rfl, rfl, rfl, ?_, rfl⟩
    cases ih <;> rfl

/-- C2.  string_match is exactly the case-insensitive subsequence check:
it accepts iff the lowercased needle characters occur, in order, within the
lowercased haystack characters; in particular the empty needle always
matches. -/
theorem C2_string_match_subsequence (lower : Char → List Char) :
    (∀ needle haystack : String,
      string_match lower needle haystack = true ↔
        (needle.data.flatMap lower).Sublist (haystack.data.flatMap lower)) ∧
    (∀ haystack : String, string_match lower "" haystack = true) :=
  ⟨fun needle haystack =>
    stringMatchChars_iff_sublist (haystack.data.flatMap lower)
      (needle.data.flatMap lower),
   fun _ => rfl⟩

/-- C3.  The raw IGT cell value 3725123 ms renders as "IGT 01:02:05.12", and
in general the indicator renders hours = t / 3600000,
minutes = t / 60000 % 60, seconds = t / 1000 % 60 and
hundredths = t % 1000 / 10, each zero-padded to two digits. -/
theorem C3_igt_format :
    igtText 3725123 = "IGT 01:02:05.12" ∧
    ∀ t : Nat,
      igtText t =
        "IGT " ++ pad2 (t / 3600000) ++ ":" ++ pad2 (t / 60000 % 60) ++ ":"
          ++ pad2 (t / 1000 % 60) ++ "." ++ pad2 (t % 1000 / 10) := by
  refine ⟨rfl, fun t => ?_⟩
  show "IGT " ++ pad2 (t / 1000 / 3600) ++ ":" ++ pad2 (t / 1000 / 60 % 60)
      ++ ":" ++ pad2 (t / 1000 % 60) ++ "." ++ pad2 (t % 1000 / 10) = _
  rw [Nat.div_div_eq_div_mul, Nat.div_div_eq_div_mul]

/-- C4.  After every frame of either render loop, every entry remaining in
the frame log has age at most 5 seconds as of that frame, for any sequence
of messages arriving at arbitrary frames.  In practice_tool.rs the single
retain runs unconditionally, so this holds for any pre-state.  In lib.rs the
retain sits inside the per-widget loop, but so does the only extend of the
log: the widget vector is fixed at construction (length `k` on every frame)
and the log starts empty, so on a frame with at least one widget the final
retain bounds every surviving entry, and with an empty widget vector the log
stays empty through the whole run. -/
theorem C4_frame_log_freshness :
    (∀ (now : Nat) (log0 : List LogEntry) (msgs : List String),
      allFresh now (logPassPt now log0 msgs) = true) ∧
    (∀ (k : Nat) (frames : List (Nat × List (Option (List String))))
        (now : Nat) (wl : List (Option (List String))),
      (∀ fr ∈ frames ++ [(now, wl)], fr.2.length = k) →
      allFresh now (runLogLib (frames ++ [(now, wl)])) = true) := by
  constructor
  · intro now log0 msgs
    exact allFresh_retainFresh now (log0 ++ msgs.map fun m => (now, m))
  · intro k frames now wl h
    have hsplit : runLogLib (frames ++ [(now, wl)])
        = logPassLib now (runLogLib frames) wl := by
      simp [runLogLib, List.foldl_append]
    rw [hsplit]
    cases hwl : wl with
    | nil =>
      have hlen : wl.length = k := h (now, wl) (by simp)
      have hk : k = 0 := by
        rw [hwl] at hlen
        exact hlen.symm
      have hall : ∀ fr ∈ frames, fr.2 = ([] : List (Option (List String))) := by
        intro fr hfr
        have hfr2 : fr.2.length = k := h fr (by simp [hfr])
        rw [hk] at hfr2
        exact List.length_eq_zero.mp hfr2
      rw [runLogLib_no_widgets frames hall]
      rfl
    | cons w ws =>
      obtain ⟨l, hl⟩ :=
        logPassLib_eq_retainFresh now (w :: ws) (runLogLib frames) (by simp)
      rw [hl]
      exact allFresh_retainFresh now l

/-- C4, witness at a concrete run: one widget, two frames; the message
drained at instant 0 survives that frame and is evicted by the pass at
instant 6000. -/
theorem C4_frame_log_freshness_witness :
    (∀ fr ∈ ([((0 : Nat), [some ["old"]])]
        ++ [((6000 : Nat), [(none : Option (List String))])]),
      fr.2.length = 1) ∧
    allFresh 6000
        (runLogLib ([(0, [some ["old"]])] ++ [(6000, [none])])) = true :=
  ⟨by decide,
   C4_frame_log_freshness.2 1 [(0, [some ["old"]])] 6000 [none] (by decide)⟩

/-- C10.  Any configuration load or parse failure falls back to
Config::default(): empty command list, hence zero widgets and no hotkeys
beyond the display key; log level DEBUG; display hotkey the "0" key; console
hidden. -/
theorem C10_default_config (e : String) :
    startupConfig (Except.error e) = (Config.default, some e) ∧
    Config.default.commands = [] ∧
    Config.default.make_commands = [] ∧
    Config.default.settings.log_level = LevelFilter.DEBUG ∧
    get_key_code "0" = some 0x30 ∧
    Config.default.settings.display = KeyState.new 0x30 none ∧
    Config.default.settings.show_console = false :=
  ⟨rfl, rfl, rfl, rfl, rfl, rfl, rfl⟩

/-- C5, counterexample.  A command table with flag = "nonesuch" does fail to
parse, but the serde untagged protocol discards the per-variant FlagSpec
error that mentions "nonesuch" and reports its fixed mismatch message, so
the surfaced parse error does not mention "nonesuch". -/
theorem C5_counterexample :
    parseCommands 1 [[("flag", TomlVal.str "nonesuch")]]
      = Except.error (configParseErrorHead ++ untaggedErrorMsg) ∧
    mentions "nonesuch" (configParseErrorHead ++ untaggedErrorMsg) = false ∧
    FlagSpec.tryFrom "nonesuch"
      = Except.error "\"nonesuch\" is not a valid flag specifier" :=
  ⟨rfl, rfl, rfl⟩

/-- C5, amended.  A flag value outside the closed catalogue makes FlagSpec
deserialization fail, hence no untagged variant matches the command table
and the configuration parse fails; the error carries the fixed serde
untagged-mismatch message (which does not name the offending value), and
startup falls back to the default configuration, keeping the message for
logging. -/
theorem C5_unknown_flag (name e : String)
    (he : FlagSpec.tryFrom name = Except.error e) (fuel : Nat) :
    parseCommands (fuel + 1) [[("flag", TomlVal.str name)]]
      = Except.error (configParseErrorHead ++ untaggedErrorMsg) ∧
    startupConfig (Except.error (configParseErrorHead ++ untaggedErrorMsg))
      = (Config.default, some (configParseErrorHead ++ untaggedErrorMsg)) := by
  refine ⟨?_, rfl⟩
  have hflag : reqFlag [("flag", TomlVal.str name)] "flag" = none := by
    simp [reqFlag, lookupKey, he]
  simp [parseCommands, parseCfgCommand, reqKey, optKey, reqU32, reqF32,
    reqF32List, reqOpenMenuKind, reqString, lookupKey, parseKeyState, hflag]

/-- C5, witness for the amended theorem at the concrete input of the spec
scenario E2. -/
theorem C5_unknown_flag_witness :
    FlagSpec.tryFrom "nonesuch"
        = Except.error "\"nonesuch\" is not a valid flag specifier" ∧
    parseCommands 1 [[("flag", TomlVal.str "nonesuch")]]
      = Except.error (configParseErrorHead ++ untaggedErrorMsg) ∧
    startupConfig (Except.error (configParseErrorHead ++ untaggedErrorMsg))
      = (Config.default, some (configParseErrorHead ++ untaggedErrorMsg)) :=
  ⟨rfl,
   (C5_unknown_flag "nonesuch" "\"nonesuch\" is not a valid flag specifier" rfl 0).1,
   (C5_unknown_flag "nonesuch" "\"nonesuch\" is not a valid flag specifier" rfl 0).2⟩

/-- C6.  When the sentinel bitflag does not resolve (the player is not in a
live game), spawn issues no call through the spawn-item function pointer,
leaves every spawn parameter unchanged, and appends exactly one message to
the widget log. -/
theorem C6_spawn_not_in_game (s : ItemSpawner) :
    (ItemSpawner.spawn none s).2 = [] ∧
    (ItemSpawner.spawn none s).1.item_id = s.item_id ∧
    (ItemSpawner.spawn none s).1.qty = s.qty ∧
    (ItemSpawner.spawn none s).1.durability = s.durability ∧
    (ItemSpawner.spawn none s).1.upgrade = s.upgrade ∧
    (ItemSpawner.spawn none s).1.infusion_type = s.infusion_type ∧
    logMessages (ItemSpawner.spawn none s).1.log
      = logMessages s.log ++ ["不在游戏中无法生成物品"] := by
  refine ⟨rfl, rfl, rfl, rfl, rfl, rfl, ?_⟩
  cases h : s.log <;>
    simp [ItemSpawner.spawn, ItemSpawner.write_log, logMessages, h]

/-- C7, counterexample.  The game snapshot read on open is unconstrained
best-effort memory; take one whose vigor field is 0.  An edit of the souls
field clamps only the souls field, so after that edit the buffered snapshot
still violates the attribute clamp: the claim that every field satisfies the
clamps after any edit is false. -/
theorem C7_counterexample :
    statGet (editStat ⟨10, 0, 10, 10, 10, 10, 10, 10, 10, 10, 0⟩
        StatField.souls 5) StatField.vigor = 0 ∧
    statsInRange (editStat ⟨10, 0, 10, 10, 10, 10, 10, 10, 10, 10, 0⟩
        StatField.souls 5) = false :=
  ⟨rfl, rfl⟩

/-- C7, amended.  After an edit of a field, the edited field lies inside its
clamp range (1..=99 for the nine attribute stats, 1..=INT_MAX for level,
0..=INT_MAX for souls); every other field keeps its previous value, so
fields enter their ranges only as they are edited; and the buffered snapshot
is written back to the game exactly when the apply button is pressed. -/
theorem C7_stats_editor (s : CharacterStats) (f : StatField) (v : Int) :
    (clampRange f).1 ≤ statGet (editStat s f v) f ∧
    statGet (editStat s f v) f ≤ (clampRange f).2 ∧
    (∀ g : StatField, g ≠ f → statGet (editStat s f v) g = statGet s g) ∧
    (∀ (edits : List (StatField × Int)) (ap : Bool),
      (statsModalFrame s edits ap).2
        = if ap then [(statsModalFrame s edits ap).1] else []) := by
  have hlohi : (clampRange f).1 ≤ (clampRange f).2 := by cases f <;> decide
  obtain ⟨h1, h2⟩ := clampInt_mem v (clampRange f).1 (clampRange f).2 hlohi
  refine ⟨?_, ?_, ?_, fun edits ap => rfl⟩
  · rw [editStat, statGet_statSet_same]
    exact h1
  · rw [editStat, statGet_statSet_same]
    exact h2
  · intro g hg
    rw [editStat, statGet_statSet_other _ _ _ _ hg]

/-- C7, witness for the amended theorem: editing souls leaves vigor at its
previous value. -/
theorem C7_stats_editor_witness :
    StatField.vigor ≠ StatField.souls ∧
    statGet (editStat ⟨10, 0, 10, 10, 10, 10, 10, 10, 10, 10, 0⟩
        StatField.souls 5) StatField.vigor
      = statGet (⟨10, 0, 10, 10, 10, 10, 10, 10, 10, 10, 0⟩ : CharacterStats)
          StatField.vigor :=
  ⟨by decide,
   (C7_stats_editor ⟨10, 0, 10, 10, 10, 10, 10, 10, 10, 10, 0⟩
       StatField.souls 5).2.2.1 StatField.vigor (by decide)⟩

/-- C8, counterexample.  A run in which the window is found but OpenProcess
fails (NULL process handle) surfaces no error whatsoever: the claim that
every failing step surfaces an error with the OS last-error code is false. -/
theorem C8_counterexample :
    (inject { find_window := some 1, last_error := 5, open_process := 0,
              alloc := none, write_ok := false, create_thread := 0 }).errors
      = [] :=
  rfl

/-- C8, amended.  Only the window-lookup step of inject is checked: on a NULL
window handle the function logs an error with the OS last-error code and
returns early, before any handle or allocation exists.  When the window is
found, the remaining steps run unchecked, whatever their outcomes: no error
is surfaced, and the remote allocation is freed and the thread and process
handles closed unconditionally.  The function returns unit, so failures
cannot drive a non-zero exit from here. -/
theorem C8_inject_steps (env : InjectEnv) :
    (env.find_window = none →
      inject env
        = { errors := [("FindWindowA", env.last_error)], freed := [],
            closed := [] }) ∧
    (∀ h : Nat, env.find_window = some h →
      (inject env).errors = [] ∧
      (inject env).freed = [env.alloc.getD 0] ∧
      (inject env).closed = [env.create_thread, env.open_process]) := by
  constructor
  · intro hf
    simp [inject, hf]
  · intro h hf
    simp [inject, hf]

/-- C8, witness for the amended theorem at a failing window lookup. -/
theorem C8_inject_steps_witness :
    (({ find_window := none, last_error := 2, open_process := 0, alloc := none,
        write_ok := false, create_thread := 0 } : InjectEnv).find_window
      = none) ∧
    inject { find_window := none, last_error := 2, open_process := 0,
             alloc := none, write_ok := false, create_thread := 0 }
      = { errors := [("FindWindowA", 2)], freed := [], closed := [] } :=
  ⟨rfl,
   (C8_inject_steps
       { find_window := none, last_error := 2, open_process := 0,
         alloc := none, write_ok := false, create_thread := 0 }).1 rfl⟩

/-- C9, counterexample.  In the Closed mode of both render loops the widgets
are ticked, yet the passive render pass is dispatched before the interact
pass: already with a single widget the trace runs render_closed first, so
interact does not precede every render pass in every widget-ticking mode. -/
theorem C9_counterexample :
    interactsPrecedeRenders (traceClosed [0]) = false ∧
    traceClosed [0] = [(0, WidgetCall.renderClosed), (0, WidgetCall.interact)] :=
  ⟨rfl, rfl⟩

/-- C9, amended.  In MenuOpen mode every interact call is dispatched before
every render call, both passes in config order (in practice_tool.rs the
interact pass is skipped while the UI captures keyboard with an active
item); in Closed mode the passive render pass is dispatched before the
interact pass, both in config order; in Hidden mode only interact runs, in
config order. -/
theorem C9_dispatch_order :
    (∀ ws : List Nat,
      interactsPrecedeRenders (traceVisibleLib ws) = true ∧
      interactOrder (traceVisibleLib ws) = ws ∧
      renderOrder (traceVisibleLib ws) = ws) ∧
    (∀ (gate : Bool) (ws : List Nat),
      interactsPrecedeRenders (traceVisiblePt gate ws) = true ∧
      renderOrder (traceVisiblePt gate ws) = ws) ∧
    (∀ ws : List Nat, interactOrder (traceVisiblePt false ws) = ws) ∧
    (∀ ws : List Nat,
      rendersPrecedeInteracts (traceClosed ws) = true ∧
      interactOrder (traceClosed ws) = ws ∧
      renderOrder (traceClosed ws) = ws) ∧
    (∀ ws : List Nat,
      renderOrder (traceHidden ws) = [] ∧
      interactOrder (traceHidden ws) = ws) := by
  refine ⟨fun ws => ⟨?_, ?_, ?_⟩, fun gate ws => ⟨?_, ?_⟩, fun ws => ?_,
    fun ws => ⟨?_, ?_, ?_⟩, fun ws => ⟨?_, ?_⟩⟩
  · exact interactsPrecedeRenders_append_interacts ws _
      (interactsPrecedeRenders_renders ws)
  · exact interactOrder_interacts_renders ws ws WidgetCall.render rfl
  · exact renderOrder_interacts_renders ws ws WidgetCall.render rfl
  · cases gate
    · exact interactsPrecedeRenders_append_interacts ws _
        (interactsPrecedeRenders_renders ws)
    · exact interactsPrecedeRenders_renders ws
  · cases gate
    · exact renderOrder_interacts_renders ws ws WidgetCall.render rfl
    · exact renderOrder_interacts_renders [] ws WidgetCall.render rfl
  · exact interactOrder_interacts_renders ws ws WidgetCall.render rfl
  · exact rendersPrecedeInteracts_append_renders ws _
      (rendersPrecedeInteracts_interacts ws)
  · exact interactOrder_renders_interacts ws ws WidgetCall.renderClosed rfl
  · exact renderOrder_renders_interacts ws ws WidgetCall.renderClosed rfl
  · exact renderOrder_renders_interacts [] ws WidgetCall.render rfl
  · exact interactOrder_renders_interacts [] ws WidgetCall.render rfl

end DS3PT
